import Mathlib

/-!
Shallow embedding of the dataset-controller reconciliation loop
(`internal/controller/dataset_controller.go`) and of the process
configuration package (`pkg/config`), together with proofs of the
behavioural properties stated about them.

Modelling conventions:
  * Go machine state (the cluster state store) is passed explicitly.
  * Fallible Go calls return `Except GoErr` values; a Go runtime panic is a
    distinct outcome (`Outcome.panicked`), since it aborts the process rather
    than being returned to the caller.
  * External collaborators that the controller calls but whose code is not
    part of this repository (the Kubernetes client/state store, the JSON
    unmarshaller, the template engine) are modelled from their documented
    interface semantics, restricted to the fragment this controller exercises.
  * Every side-effecting step of the reconciliation pipeline is recorded in an
    explicit `Effect` trace, so frame properties ("performs no manifest
    work") are statements about the trace.
-/

namespace DatasetController

/-! ## Data model: the Dataset custom resource (mirrors the Go API types) -/

/-- A split of a subset, holding a file reference (`Splits.Train.File` etc.). -/
structure Split where
  file : String
deriving DecidableEq, Repr

/-- The train/test splits of a subset. -/
structure Splits where
  train : Split
  test : Split
deriving DecidableEq, Repr

/-- One subset of the dataset's data description. -/
structure Subset where
  splits : Splits
deriving DecidableEq, Repr

/-- The plugin reference of a Dataset: load flag, plugin name and the
JSON-encoded parameter blob. -/
structure Plugin where
  loadPlugin : Bool
  name : String
  parameters : String
deriving DecidableEq, Repr

/-- Record `DatasetInfo` holds the list of subsets. -/
structure DatasetInfo where
  subsets : List Subset
deriving DecidableEq, Repr

/-- Record `DatasetMetadata` couples the data description with the plugin reference. -/
structure DatasetMetadata where
  datasetInfo : DatasetInfo
  plugin : Plugin
deriving DecidableEq, Repr

/-- The Dataset spec. -/
structure DatasetSpec where
  datasetMetadata : DatasetMetadata
deriving DecidableEq, Repr

/-- The enumerated readiness state written to the Dataset status
(`extensionv1beta1.DatasetReady` / `DatasetUnready`; initially unset). -/
inductive DatasetStateVal where
  | ready
  | unready
  | unset
deriving DecidableEq, Repr

/-- The Dataset status record. -/
structure DatasetStatus where
  state : DatasetStateVal
deriving DecidableEq, Repr

/-- The watched Dataset resource: object metadata (name/namespace), spec and
status. -/
structure Dataset where
  name : String
  ns : String
  spec : DatasetSpec
  status : DatasetStatus
deriving DecidableEq, Repr

/-- The DataPlugin descriptor spec: a dataset classification and a provider. -/
structure DataPluginSpec where
  datasetClass : String
  provider : String
deriving DecidableEq, Repr

/-- The DataPlugin descriptor resource, looked up by name. -/
structure DataPlugin where
  spec : DataPluginSpec
deriving DecidableEq, Repr

/-! ## Subset validation (`isSubsetInfoValid`) -/

/-- Embedding of `isSubsetInfoValid`: walks the subsets and returns `true` at
the first subset whose train file and test file are both non-empty; returns
`false` when the list is exhausted. -/
def isSubsetInfoValid : List Subset → Bool
  | [] => false
  | subset :: rest =>
    if subset.splits.train.file ≠ "" ∧ subset.splits.test.file ≠ "" then
      true
    else
      isSubsetInfoValid rest

/-! ## Errors, outcomes -/

/-- The error values surfaced by the calls the controller makes.  The exact
message strings are irrelevant to control flow; what matters is the
constructor (`notFound` is the one tested by `errors.IsNotFound` /
`client.IgnoreNotFound`). -/
inductive GoErr where
  /-- A read returned "not found". -/
  | notFound
  /-- From `encoding/json`: input is not well-formed JSON. -/
  | badJson (msg : String)
  /-- From `encoding/json`: well-formed JSON of the wrong top-level type for a map. -/
  | typeErr (msg : String)
  /-- The template engine found an unresolved placeholder. -/
  | templateErr (msg : String)
  /-- The YAML manifest failed to decode. -/
  | decodeErr (msg : String)
  /-- An `os.ReadFile` failure. -/
  | fileErr (msg : String)
  /-- A state-store create/update failure other than a version conflict. -/
  | storeErr (msg : String)
  /-- Optimistic-concurrency rejection: stale version token on update. -/
  | conflict
deriving DecidableEq, Repr

/-- Outcome of a Go computation: a value, a returned error, or a runtime
panic (which aborts the process instead of being returned). -/
inductive Outcome (α : Type) where
  | ok (a : α)
  | err (e : GoErr)
  | panicked (msg : String)
deriving DecidableEq, Repr

/-- Result of a client `Get`: the object, "not found", or some other error. -/
inductive GetRes (α : Type) where
  | found (a : α)
  | notFound
  | errOther (e : GoErr)
deriving DecidableEq, Repr

/-! ## JSON values and Go maps

The plugin parameter blob is unmarshalled into a Go `map[string]interface{}`.
We model JSON values as a tagged variant and the Go map as an association
list; `goMapInsert` models Go's `m[k] = v` on a non-nil map (overwrite an
existing key, otherwise add the entry); the assignment on a `nil` map is a
panic, handled where the map is built (`assembleParameters`). -/

/-- A JSON value. -/
inductive JVal where
  | jnull
  | jbool (b : Bool)
  | jnum (n : Int)
  | jstr (s : String)
  | jobj (fields : List (String × JVal))
  | jarr (elems : List JVal)

/-- A non-nil Go `map[string]interface{}`, as an association list with
distinct insertion-ordered keys. -/
def GoMap : Type := List (String × JVal)

/-- Lookup in a Go map. -/
def goMapLookup : GoMap → String → Option JVal
  | [], _ => none
  | (k, v) :: rest, key => if k = key then some v else goMapLookup rest key

/-- Go map assignment `m[k] = v` on a non-nil map: overwrites the entry with
key `k` if present, otherwise appends it. -/
def goMapInsert : GoMap → String → JVal → GoMap
  | [], key, v => [(key, v)]
  | (k, w) :: rest, key, v =>
    if k = key then (key, v) :: rest else (k, w) :: goMapInsert rest key v

/-! ## `encoding/json` unmarshalling into `map[string]interface{}`

Modelled from the documented semantics of `json.Unmarshal` on the fragment
the controller exercises: leading/trailing whitespace is skipped; the JSON
literal `null` zeroes the destination map (leaving it `nil`); a JSON object
yields the map of its members; any other well-formed top-level value is a
type error; ill-formed input (including empty input, reported as
"unexpected end of JSON input") is a syntax error.  Numbers are modelled as
integers and string escapes are outside the modelled fragment (an input
using them is rejected rather than mis-parsed). -/

def lbraceChar : Char := '\x7b'

def rbraceChar : Char := '\x7d'

def quoteChar : Char := '\x22'

/-- Skip JSON insignificant whitespace. -/
def skipWs : List Char → List Char
  | c :: cs =>
    if c = ' ' ∨ c = '\t' ∨ c = '\n' ∨ c = '\r' then skipWs cs else c :: cs
  | [] => []

/-- Consume an expected literal suffix (e.g. `ull` after `n`). -/
def eatLit : List Char → List Char → Except String (List Char)
  | [], cs => .ok cs
  | l :: ls, c :: cs =>
    if c = l then eatLit ls cs else .error "invalid character in literal"
  | _ :: _, [] => .error "unexpected end of JSON input"

/-- Parse the body of a JSON string after the opening quote (escape
sequences are outside the modelled fragment). -/
def parseStringBody : List Char → Except String (String × List Char)
  | [] => .error "unexpected end of JSON input"
  | c :: cs =>
    if c = quoteChar then .ok ("", cs)
    else if c = '\\' then .error "string escapes outside modelled fragment"
    else
      match parseStringBody cs with
      | .error e => .error e
      | .ok (s, rest) => .ok (String.mk (c :: s.data), rest)

/-- Parse a run of decimal digits into a natural number. -/
def parseDigits : List Char → Nat → Except String (Nat × List Char)
  | c :: cs, acc =>
    if c.isDigit then parseDigits cs (acc * 10 + (c.toNat - '0'.toNat))
    else .ok (acc, c :: cs)
  | [], acc => .ok (acc, [])

/-- Parse a JSON number (integral fragment; a fraction or exponent is
outside the modelled fragment). -/
def parseNumber (cs : List Char) : Except String (Int × List Char) :=
  match cs with
  | '-' :: c :: rest =>
    if c.isDigit then
      match parseDigits (c :: rest) 0 with
      | .error e => .error e
      | .ok (n, rest') => .ok (-(n : Int), rest')
    else .error "invalid character in number"
  | c :: rest =>
    if c.isDigit then
      match parseDigits (c :: rest) 0 with
      | .error e => .error e
      | .ok (n, rest') => .ok ((n : Int), rest')
    else .error "invalid character in number"
  | [] => .error "unexpected end of JSON input"

mutual

/-- Recursive-descent parse of one JSON value; `fuel` strictly exceeds the
remaining input length, so it never runs out on real input. -/
def parseJVal : Nat → List Char → Except String (JVal × List Char)
  | 0, _ => .error "out of fuel"
  | fuel + 1, cs =>
    match skipWs cs with
    | [] => .error "unexpected end of JSON input"
    | c :: rest =>
      if c = 'n' then
        match eatLit ['u', 'l', 'l'] rest with
        | .error e => .error e
        | .ok rest' => .ok (JVal.jnull, rest')
      else if c = 't' then
        match eatLit ['r', 'u', 'e'] rest with
        | .error e => .error e
        | .ok rest' => .ok (JVal.jbool true, rest')
      else if c = 'f' then
        match eatLit ['a', 'l', 's', 'e'] rest with
        | .error e => .error e
        | .ok rest' => .ok (JVal.jbool false, rest')
      else if c = quoteChar then
        match parseStringBody rest with
        | .error e => .error e
        | .ok (s, rest') => .ok (JVal.jstr s, rest')
      else if c = '-' ∨ c.isDigit then
        match parseNumber (c :: rest) with
        | .error e => .error e
        | .ok (n, rest') => .ok (JVal.jnum n, rest')
      else if c = lbraceChar then
        parseObjFields fuel rest true []
      else if c = '[' then
        parseArrElems fuel rest true []
      else .error "invalid character"

/-- Parse the members of a JSON object after the opening brace.  `first` is
true before any member has been read; `acc` holds the members read so far in
order. -/
def parseObjFields : Nat → List Char → Bool → List (String × JVal) →
    Except String (JVal × List Char)
  | 0, _, _, _ => .error "out of fuel"
  | fuel + 1, cs, first, acc =>
    match skipWs cs with
    | [] => .error "unexpected end of JSON input"
    | c :: rest =>
      if c = rbraceChar ∧ first then .ok (JVal.jobj acc.reverse, rest)
      else
        let afterSep : Except String (List Char) :=
          if first then .ok (c :: rest)
          else if c = ',' then .ok rest
          else .error "invalid character after object member"
        match afterSep with
        | .error e => .error e
        | .ok cs₁ =>
          match skipWs cs₁ with
          | [] => .error "unexpected end of JSON input"
          | k :: rest₁ =>
            if k = quoteChar then
              match parseStringBody rest₁ with
              | .error e => .error e
              | .ok (key, rest₂) =>
                match skipWs rest₂ with
                | ':' :: rest₃ =>
                  match parseJVal fuel rest₃ with
                  | .error e => .error e
                  | .ok (v, rest₄) =>
                    match skipWs rest₄ with
                    | [] => .error "unexpected end of JSON input"
                    | d :: rest₅ =>
                      if d = rbraceChar then
                        .ok (JVal.jobj ((key, v) :: acc).reverse, rest₅)
                      else
                        parseObjFields fuel (d :: rest₅) false ((key, v) :: acc)
                | _ => .error "expected colon after object key"
            else .error "expected string key in object"

/-- Parse the elements of a JSON array after the opening bracket. -/
def parseArrElems : Nat → List Char → Bool → List JVal →
    Except String (JVal × List Char)
  | 0, _, _, _ => .error "out of fuel"
  | fuel + 1, cs, first, acc =>
    match skipWs cs with
    | [] => .error "unexpected end of JSON input"
    | c :: rest =>
      if c = ']' ∧ first then .ok (JVal.jarr acc.reverse, rest)
      else
        let afterSep : Except String (List Char) :=
          if first then .ok (c :: rest)
          else if c = ',' then .ok rest
          else .error "invalid character after array element"
        match afterSep with
        | .error e => .error e
        | .ok cs₁ =>
          match parseJVal fuel cs₁ with
          | .error e => .error e
          | .ok (v, rest₂) =>
            match skipWs rest₂ with
            | [] => .error "unexpected end of JSON input"
            | d :: rest₃ =>
              if d = ']' then .ok (JVal.jarr (v :: acc).reverse, rest₃)
              else parseArrElems fuel (d :: rest₃) false (v :: acc)

end

/-- Model of `json.Unmarshal(blob, &m)` for `var m map[string]interface{}`:
`.ok none` models the map being left `nil` (JSON `null`), `.ok (some kvs)`
models a populated map. -/
def goJsonUnmarshalMap (blob : String) : Except GoErr (Option GoMap) :=
  let cs := blob.data
  match parseJVal (cs.length + 1) cs with
  | .error m => .error (.badJson m)
  | .ok (v, rest) =>
    if skipWs rest ≠ [] then .error (.badJson "invalid character after top-level value")
    else
      match v with
      | .jnull => .ok none
      | .jobj fields => .ok (some fields)
      | _ => .error (.typeErr "cannot unmarshal value into map[string]interface \x7b\x7d")

/-! ## Template rendering -/

/-- The textual form of a parameter value, as substituted into the manifest. -/
def jvalText : JVal → String
  | .jnull => "null"
  | .jbool b => if b then "true" else "false"
  | .jnum n => toString n
  | .jstr s => s
  | .jobj _ => "[object]"
  | .jarr _ => "[array]"

/-- Read a placeholder name up to the closing double brace. -/
def readPlaceholderName : List Char → Except GoErr (String × List Char)
  | [] => .error (.templateErr "unterminated placeholder")
  | c :: cs =>
    if c = rbraceChar then
      match cs with
      | c₂ :: cs₂ =>
        if c₂ = rbraceChar then .ok ("", cs₂)
        else .error (.templateErr "malformed placeholder")
      | [] => .error (.templateErr "unterminated placeholder")
    else
      match readPlaceholderName cs with
      | .error e => .error e
      | .ok (nm, rest) => .ok (String.mk (c :: nm.data), rest)

/-- Modelled from the spec: `parser.ReplaceTemplate` (utility library, not
under src/) substitutes every `\x7b\x7bname\x7d\x7d` placeholder with the
named parameter's textual form and fails with a template-resolution error on
a placeholder whose name is not in the mapping. -/
def replaceTemplateAux : Nat → List Char → GoMap → Except GoErr (List Char)
  | 0, _, _ => .error (.templateErr "out of fuel")
  | _ + 1, [], _ => .ok []
  | fuel + 1, c :: cs, params =>
    if c = lbraceChar then
      match cs with
      | c₂ :: cs₂ =>
        if c₂ = lbraceChar then
          match readPlaceholderName cs₂ with
          | .error e => .error e
          | .ok (nm, rest) =>
            match goMapLookup params nm with
            | none => .error (.templateErr ("unresolved placeholder " ++ nm))
            | some v =>
              match replaceTemplateAux fuel rest params with
              | .error e => .error e
              | .ok tail => .ok ((jvalText v).data ++ tail)
        else
          match replaceTemplateAux fuel (c₂ :: cs₂) params with
          | .error e => .error e
          | .ok tail => .ok (c :: tail)
      | [] => .ok [c]
    else
      match replaceTemplateAux fuel cs params with
      | .error e => .error e
      | .ok tail => .ok (c :: tail)

/-- Function `parser.ReplaceTemplate` on strings. -/
def replaceTemplate (s : String) (params : GoMap) : Except GoErr String :=
  match replaceTemplateAux (s.data.length + 1) s.data params with
  | .error e => .error e
  | .ok cs => .ok (String.mk cs)

/-! ## Parameter assembly and placeholder replacement
(`replacePlaceholders`, lines 170–193 of the controller) -/

/-- Modelled from `pkg/config`: `config.GetCompleteNotifyURL()` reads the
process-wide `COMPLETE_NOTIFY_URL` binding; the reconciliation environment
carries its value (`ReconcileEnv.completeNotifyUrl`). -/
def getCompleteNotifyURL (configured : String) : String := configured

/-- Lines 173–183 of `replacePlaceholders`: unmarshal the plugin parameter
blob into `parameters`, then execute
`parameters["completeNotifyUrl"] = config.GetCompleteNotifyURL()`.
When the blob was JSON `null` the map is still `nil` and that assignment is
a Go runtime panic ("assignment to entry in nil map"). -/
def assembleParameters (notifyUrl : String) (blob : String) : Outcome GoMap :=
  match goJsonUnmarshalMap blob with
  | .error e => .err e
  | .ok none => .panicked "assignment to entry in nil map"
  | .ok (some parameters) =>
    .ok (goMapInsert parameters "completeNotifyUrl" (.jstr (getCompleteNotifyURL notifyUrl)))

/-! ## Documents, the cluster state store, and the apply engine -/

/-- An owner reference back to the owning Dataset (set by
`ctrl.SetControllerReference`). -/
structure OwnerRef where
  name : String
  controller : Bool
deriving DecidableEq, Repr

/-- The generic (unstructured) document applied to the cluster: identity
(apiVersion/kind/name/namespace), optional version token, optional owner
reference, and the opaque rendered payload. -/
structure Document where
  apiVersion : String
  kind : String
  name : String
  ns : String
  resourceVersion : Option Nat
  ownerRef : Option OwnerRef
  payload : String
deriving DecidableEq, Repr

/-- The identity under which the apply engine reads and writes a document. -/
structure ObjKey where
  apiVersion : String
  kind : String
  name : String
  ns : String
deriving DecidableEq, Repr

/-- The identity of a document. -/
def objKey (d : Document) : ObjKey :=
  ⟨d.apiVersion, d.kind, d.name, d.ns⟩

/-- Model of `unstructuredObj.SetNamespace(ns)`. -/
def setNamespace (d : Document) (ns : String) : Document :=
  { d with ns := ns }

/-- The owner reference `ctrl.SetControllerReference` records for a Dataset. -/
def ownerRefOf (ds : Dataset) : OwnerRef :=
  { name := ds.name, controller := true }

/-- Model of `ctrl.SetControllerReference(dataset, obj, scheme)`: stamps the Dataset
as controlling owner (the scheme lookup cannot fail for the registered
Dataset type, so the model is total). -/
def setControllerReference (ds : Dataset) (d : Document) : Document :=
  { d with ownerRef := some (ownerRefOf ds) }

/-- One observable side effect of a reconciliation cycle. -/
inductive Effect where
  /-- Call `r.Status().Update`: write of the Dataset readiness state. -/
  | statusUpdate (st : DatasetStateVal)
  /-- Call of `os.ReadFile` on the manifest template. -/
  | readTemplate (path : String)
  /-- Call of `json.Unmarshal` on the plugin parameter blob. -/
  | decodeParams
  /-- Call of `parser.ReplaceTemplate` rendering the manifest. -/
  | render
  /-- Read of a child document from the state store. -/
  | getChild (k : ObjKey)
  /-- Create of a child document issued to the state store. -/
  | createChild (d : Document)
  /-- Update of a child document issued to the state store. -/
  | updateChild (d : Document)
deriving DecidableEq, Repr

/-- Effects that touch the manifest pipeline (everything except the Dataset
status write). -/
def Effect.isManifest : Effect → Bool
  | .statusUpdate _ => false
  | _ => true

/-- Effects that write a child document to the state store. -/
def Effect.isChildWrite : Effect → Bool
  | .createChild _ => true
  | .updateChild _ => true
  | _ => false

/-- The cluster state store restricted to child documents: an association
list keyed by document identity, plus the next fresh version token.
Modelled from the spec's store interface (get / create / update with
version-token optimistic concurrency); an update that changes nothing
observable is a no-op, per the spec's idempotence contract. -/
structure ClusterStore where
  objs : List (ObjKey × Document)
  nextRV : Nat
deriving DecidableEq, Repr

/-- The empty store. -/
def emptyStore : ClusterStore := ⟨[], 0⟩

/-- Association-list lookup for the store. -/
def storeLookup : List (ObjKey × Document) → ObjKey → Option Document
  | [], _ => none
  | (k, d) :: rest, key => if k = key then some d else storeLookup rest key

/-- Replace the entry at a key in the store's association list. -/
def storeReplace : List (ObjKey × Document) → ObjKey → Document →
    List (ObjKey × Document)
  | [], _, _ => []
  | (k, d) :: rest, key, d' =>
    if k = key then (key, d') :: rest else (k, d) :: storeReplace rest key d'

/-- Store read `get(identity)`: read a document from the store. -/
def storeGet (s : ClusterStore) (k : ObjKey) : Option Document :=
  storeLookup s.objs k

/-- Store write `create(Document)`: fails if the identity already exists, otherwise
inserts the document with a fresh version token. -/
def storeCreate (s : ClusterStore) (d : Document) : Except GoErr ClusterStore :=
  match storeGet s (objKey d) with
  | some _ => .error (.storeErr "already exists")
  | none =>
    .ok { objs := (objKey d, { d with resourceVersion := some s.nextRV }) :: s.objs,
          nextRV := s.nextRV + 1 }

/-- Store write `update(Document)`: requires the identity to exist and the submitted
version token to match the stored one (otherwise the stale write is
rejected); an update that changes nothing is a no-op, and a real change is
stored under a fresh version token. -/
def storeUpdate (s : ClusterStore) (d : Document) : Except GoErr ClusterStore :=
  match storeGet s (objKey d) with
  | none => .error (.storeErr "not found on update")
  | some existing =>
    if d.resourceVersion ≠ existing.resourceVersion then .error .conflict
    else if d = existing then .ok s
    else
      .ok { objs := storeReplace s.objs (objKey d) { d with resourceVersion := some s.nextRV },
            nextRV := s.nextRV + 1 }

/-- The client operations `applyClient` performs, abstracted over the store
implementation so that read/write failures of every kind are representable. -/
structure KClient (σ : Type) where
  get : σ → ObjKey → GetRes Document
  create : σ → Document → Except GoErr σ
  update : σ → Document → Except GoErr σ

/-- Embedding of `applyClient` (lines 196–223): read the existing document of
the same identity; a read error other than not-found is returned unchanged;
if the read succeeds, copy the existing version token onto the new document
and issue an update; if the read reports not-found, issue a create.  The
effect trace records the attempted operations in order. -/
def applyClientK {σ : Type} (c : KClient σ) (s : σ) (obj : Document) :
    List Effect × Except GoErr σ :=
  let k := objKey obj
  match c.get s k with
  | .errOther e => ([.getChild k], .error e)
  | .found existing =>
    let obj₂ := { obj with resourceVersion := existing.resourceVersion }
    ([.getChild k, .updateChild obj₂], c.update s obj₂)
  | .notFound => ([.getChild k, .createChild obj], c.create s obj)

/-- The concrete client over the modelled cluster store (its reads never
fail with anything but not-found). -/
def clusterClient : KClient ClusterStore :=
  { get := fun s k =>
      match storeGet s k with
      | some d => .found d
      | none => .notFound,
    create := storeCreate,
    update := storeUpdate }

/-- Function `applyClient` against the modelled cluster store. -/
def applyClient (s : ClusterStore) (obj : Document) :
    List Effect × Except GoErr ClusterStore :=
  applyClientK clusterClient s obj

/-! ## The reconciliation environment and orchestrator -/

/-- The inputs a reconciliation cycle observes from its surroundings: the
result of fetching the requested Dataset, the DataPlugin lookup by name, the
template file system, the YAML decoder, the outcome of the Dataset status
write, and the configured notify URL.  The functions model external
collaborators (`r.Get`, `r.Status().Update`, `os.ReadFile`, the
`unstructured` YAML decoding serializer, `pkg/config`); `statusUpdate`
returns the error of `r.Status().Update(ctx, &dataset)` for the written
Dataset, or `none` on success. -/
structure ReconcileEnv where
  getDataset : GetRes Dataset
  getDataPlugin : String → GetRes DataPlugin
  readFile : String → Except GoErr String
  decodeYaml : String → Except GoErr Document
  statusUpdate : Dataset → Option GoErr
  completeNotifyUrl : String

/-- The observable outcome of one `Reconcile` call: the returned error (Go
always returns `ctrl.Result{}` alongside it), whether the process panicked,
the final child-document store, and the effect trace. -/
structure RecResult where
  retErr : Option GoErr
  panicMsg : Option String
  store : ClusterStore
  trace : List Effect
deriving DecidableEq, Repr

/-- Embedding of `replacePlaceholders` (lines 170–193): unmarshal the plugin
parameter blob, inject `completeNotifyUrl`, and render the template. -/
def replacePlaceholders (env : ReconcileEnv) (dataset : Dataset) (yamlStr : String) :
    List Effect × Outcome String :=
  match assembleParameters env.completeNotifyUrl
      dataset.spec.datasetMetadata.plugin.parameters with
  | .err e => ([.decodeParams], .err e)
  | .panicked m => ([.decodeParams], .panicked m)
  | .ok parameters =>
    match replaceTemplate yamlStr parameters with
    | .error e => ([.decodeParams, .render], .err e)
    | .ok replacedYamlStr => ([.decodeParams, .render], .ok replacedYamlStr)

/-- Embedding of `applyYAML` (lines 121–167): read the template file, replace
placeholders, decode the YAML into an unstructured document, stamp namespace
and owner reference, and hand the document to `applyClient`.  Any error is
returned unchanged and aborts the pipeline at that point. -/
def applyYAML (env : ReconcileEnv) (s : ClusterStore) (path : String)
    (dataset : Dataset) : List Effect × Outcome ClusterStore :=
  match env.readFile path with
  | .error e => ([.readTemplate path], .err e)
  | .ok yamlStr =>
    match replacePlaceholders env dataset yamlStr with
    | (tr, .err e) => (.readTemplate path :: tr, .err e)
    | (tr, .panicked m) => (.readTemplate path :: tr, .panicked m)
    | (tr, .ok replacedYamlStr) =>
      match env.decodeYaml replacedYamlStr with
      | .error e => (.readTemplate path :: tr, .err e)
      | .ok unstructuredObj =>
        let stamped := setControllerReference dataset (setNamespace unstructuredObj dataset.ns)
        match applyClient s stamped with
        | (tr₂, .ok s₁) => (.readTemplate path :: (tr ++ tr₂), .ok s₁)
        | (tr₂, .error e) => (.readTemplate path :: (tr ++ tr₂), .err e)

/-- The manifest template path built from the DataPlugin descriptor
(`filepath.Join("plugins", class, provider, "plugin.yaml")`). -/
def pluginPathOf (dataPlugin : DataPlugin) : String :=
  "plugins/" ++ dataPlugin.spec.datasetClass ++ "/" ++ dataPlugin.spec.provider ++ "/plugin.yaml"

/-- The DataPlugin block of `Reconcile` (lines 82–104): if `LoadPlugin` is
set, fetch the DataPlugin (not-found swallowed by `IgnoreNotFound`, any
other fetch error returned) and run `applyYAML` on the descriptor's
template path; otherwise fall through to the final successful return.
`tr₀` is the trace accumulated before this block. -/
def reconcilePluginPhase (env : ReconcileEnv) (s : ClusterStore) (dataset : Dataset)
    (tr₀ : List Effect) : RecResult :=
  if dataset.spec.datasetMetadata.plugin.loadPlugin then
    match env.getDataPlugin dataset.spec.datasetMetadata.plugin.name with
    | .notFound => ⟨none, none, s, tr₀⟩
    | .errOther e => ⟨some e, none, s, tr₀⟩
    | .found dataPlugin =>
      match applyYAML env s (pluginPathOf dataPlugin) dataset with
      | (tr, .ok s₁) => ⟨none, none, s₁, tr₀ ++ tr⟩
      | (tr, .err e) => ⟨some e, none, s, tr₀ ++ tr⟩
      | (tr, .panicked m) => ⟨none, some m, s, tr₀ ++ tr⟩
  else ⟨none, none, s, tr₀⟩

/-- Embedding of `Reconcile` (lines 63–105).  Control flow mirrors the Go
source: fetch the Dataset (not-found is swallowed by `IgnoreNotFound`); if
subset validation fails, set the status field to UNREADY and issue the
status write — a failing write returns its error, and on success the
source does NOT return early, it falls through; then the DataPlugin block
runs (`reconcilePluginPhase`). -/
def Reconcile (env : ReconcileEnv) (s : ClusterStore) : RecResult :=
  match env.getDataset with
  | .notFound => ⟨none, none, s, []⟩
  | .errOther e => ⟨some e, none, s, []⟩
  | .found dataset =>
    if isSubsetInfoValid dataset.spec.datasetMetadata.datasetInfo.subsets then
      reconcilePluginPhase env s dataset []
    else
      let dataset' : Dataset := { dataset with status := { state := .unready } }
      match env.statusUpdate dataset' with
      | some e => ⟨some e, none, s, [.statusUpdate .unready]⟩
      | none => reconcilePluginPhase env s dataset' [.statusUpdate .unready]

/-! ## Concrete instances used in closed evaluations -/

/-- A minimal environment in which every external lookup fails benignly. -/
def envMin : ReconcileEnv :=
  { getDataset := .notFound,
    getDataPlugin := fun _ => .notFound,
    readFile := fun _ => .error (.fileErr "absent"),
    decodeYaml := fun _ => .error (.decodeErr "undecodable"),
    statusUpdate := fun _ => none,
    completeNotifyUrl := "http://notify" }

/-- A sample unstructured document as produced by the YAML decoder (no
namespace, no owner, no version token yet). -/
def docA : Document :=
  { apiVersion := "v1", kind := "A", name := "child", ns := "",
    resourceVersion := none, ownerRef := none, payload := "kind: A" }

/-- A Dataset with one subset whose test file reference is empty (the
spec's `ds-1` scenario) and a plugin reference requesting loading. -/
def dsC1 : Dataset :=
  { name := "ds-1", ns := "team-a",
    spec := { datasetMetadata :=
      { datasetInfo := { subsets :=
          [ { splits := { train := { file := "train.csv" }, test := { file := "" } } } ] },
        plugin := { loadPlugin := true, name := "p1", parameters := "\x7b\x7d" } } },
    status := { state := .unset } }

/-- An environment in which `dsC1` is present, its DataPlugin resolves, the
template file exists (placeholder-free) and the YAML decoder succeeds. -/
def envC1 : ReconcileEnv :=
  { getDataset := .found dsC1,
    getDataPlugin := fun nm =>
      if nm = "p1" then .found { spec := { datasetClass := "text", provider := "acme" } }
      else .notFound,
    readFile := fun p =>
      if p = "plugins/text/acme/plugin.yaml" then .ok "kind: A"
      else .error (.fileErr "no such file"),
    decodeYaml := fun s => .ok { docA with payload := s },
    statusUpdate := fun _ => none,
    completeNotifyUrl := "http://notify" }

/-- The document `envC1`'s pipeline stamps and hands to the apply engine. -/
def stampedC1 : Document :=
  { apiVersion := "v1", kind := "A", name := "child", ns := "team-a",
    resourceVersion := none,
    ownerRef := some { name := "ds-1", controller := true }, payload := "kind: A" }

/-- A Dataset with a valid subset whose plugin reference requests loading of
a DataPlugin that does not exist. -/
def dsC6 : Dataset :=
  { name := "ds-6", ns := "team-a",
    spec := { datasetMetadata :=
      { datasetInfo := { subsets :=
          [ { splits := { train := { file := "a" }, test := { file := "b" } } } ] },
        plugin := { loadPlugin := true, name := "ghost", parameters := "\x7b\x7d" } } },
    status := { state := .unset } }

/-- A Dataset whose plugin reference has `LoadPlugin=false`. -/
def dsC9 : Dataset :=
  { name := "ds-9", ns := "team-a",
    spec := { datasetMetadata :=
      { datasetInfo := { subsets :=
          [ { splits := { train := { file := "a" }, test := { file := "b" } } } ] },
        plugin := { loadPlugin := false, name := "p1", parameters := "\x7b\x7d" } } },
    status := { state := .unset } }

/-- A Dataset whose plugin parameter blob is the JSON literal `null`. -/
def dsNullBlob : Dataset :=
  { dsC9 with spec := { datasetMetadata :=
      { datasetInfo := dsC9.spec.datasetMetadata.datasetInfo,
        plugin := { loadPlugin := true, name := "p1", parameters := "null" } } } }

/-- A Dataset whose plugin parameter blob is the empty string. -/
def dsEmptyBlob : Dataset :=
  { dsC9 with spec := { datasetMetadata :=
      { datasetInfo := dsC9.spec.datasetMetadata.datasetInfo,
        plugin := { loadPlugin := true, name := "p1", parameters := "" } } } }

/-- A Dataset with `LoadPlugin=false` and no subset with both file
references non-empty (so the UNREADY status write is issued). -/
def dsC9inv : Dataset :=
  { name := "ds-9i", ns := "team-a",
    spec := { datasetMetadata :=
      { datasetInfo := { subsets :=
          [ { splits := { train := { file := "train.csv" }, test := { file := "" } } } ] },
        plugin := { loadPlugin := false, name := "p1", parameters := "\x7b\x7d" } } },
    status := { state := .unset } }

/-- An environment in which `dsC9inv` is present and the status write
fails. -/
def envC9cx : ReconcileEnv :=
  { envMin with
    getDataset := .found dsC9inv,
    statusUpdate := fun _ => some (.storeErr "status update failed") }

/-- A Dataset requesting loading of a missing DataPlugin, with no subset
with both file references non-empty (so the UNREADY status write is
issued). -/
def dsC6inv : Dataset :=
  { name := "ds-6i", ns := "team-a",
    spec := { datasetMetadata :=
      { datasetInfo := { subsets :=
          [ { splits := { train := { file := "train.csv" }, test := { file := "" } } } ] },
        plugin := { loadPlugin := true, name := "ghost", parameters := "\x7b\x7d" } } },
    status := { state := .unset } }

/-- An environment in which `dsC6inv` is present, its DataPlugin is
missing, and the status write fails. -/
def envC6cx : ReconcileEnv :=
  { envMin with
    getDataset := .found dsC6inv,
    statusUpdate := fun _ => some (.storeErr "status update failed") }

/-- A parameter blob that itself supplies a `completeNotifyUrl` entry. -/
def blobC10 : String := "\x7b\x22completeNotifyUrl\x22:\x22user-supplied\x22\x7d"

/-- The mapping `blobC10` decodes to. -/
def mapC10 : GoMap := [("completeNotifyUrl", .jstr "user-supplied")]

/-! ## Helper lemmas -/

theorem goMapLookup_insert (m : GoMap) (k : String) (v : JVal) :
    goMapLookup (goMapInsert m k v) k = some v := by
  induction m with
  | nil => simp [goMapInsert, goMapLookup]
  | cons hd tl ih =>
    obtain ⟨k', w⟩ := hd
    by_cases h : k' = k
    · simp [goMapInsert, goMapLookup, h]
    · simp [goMapInsert, goMapLookup, h, ih]

theorem storeLookup_replace (l : List (ObjKey × Document)) (k : ObjKey)
    (d e : Document) (h : storeLookup l k = some e) :
    storeLookup (storeReplace l k d) k = some d := by
  induction l with
  | nil => simp [storeLookup] at h
  | cons hd tl ih =>
    obtain ⟨k', d'⟩ := hd
    by_cases hk : k' = k
    · simp [storeReplace, storeLookup, hk]
    · simp [storeLookup, hk] at h
      simp [storeReplace, storeLookup, hk, ih h]

/-! ## Claims -/

/-- Claim C7: the subset-readiness predicate returns true for a list of
subsets if and only if at least one subset in the list has both a non-empty
train file reference and a non-empty test file reference; in particular it
returns false for the empty list. -/
theorem isSubsetInfoValid_iff :
    (∀ subsets : List Subset,
      isSubsetInfoValid subsets = true ↔
        ∃ subset ∈ subsets,
          subset.splits.train.file ≠ "" ∧ subset.splits.test.file ≠ "")
    ∧ isSubsetInfoValid [] = false := by
  refine ⟨?_, rfl⟩
  intro subsets
  induction subsets with
  | nil => simp [isSubsetInfoValid]
  | cons subset rest ih =>
    by_cases h : subset.splits.train.file ≠ "" ∧ subset.splits.test.file ≠ ""
    · simp [isSubsetInfoValid, h]
    · simp only [isSubsetInfoValid, if_neg h, ih, List.mem_cons]
      constructor
      · rintro ⟨x, hx, hp⟩
        exact ⟨x, Or.inr hx, hp⟩
      · rintro ⟨x, hx | hx, hp⟩
        · exact absurd (hx ▸ hp) h
        · exact ⟨x, hx, hp⟩

/-- Claim C5: when the requested Dataset cannot be found (the initial read
returns not-found), reconciliation terminates successfully — no returned
error, no panic, an unchanged store and an empty effect trace. -/
theorem reconcile_dataset_notFound (env : ReconcileEnv) (s : ClusterStore)
    (h : env.getDataset = .notFound) :
    Reconcile env s = ⟨none, none, s, []⟩ := by
  simp [Reconcile, h]

/-- Witness for C5 at a concrete environment. -/
theorem reconcile_dataset_notFound_witness :
    envMin.getDataset = .notFound
    ∧ Reconcile envMin emptyStore = ⟨none, none, emptyStore, []⟩ :=
  ⟨rfl, reconcile_dataset_notFound envMin emptyStore rfl⟩

/-- Counterexample for C9 as stated: `dsC9inv` has `LoadPlugin=false`, yet
in `envC9cx` (no valid subset, so the UNREADY status write is issued, and
that write fails) the cycle returns the status-write error rather than
terminating successfully. -/
theorem reconcile_noLoadPlugin_cx :
    dsC9inv.spec.datasetMetadata.plugin.loadPlugin = false
    ∧ envC9cx.getDataset = .found dsC9inv
    ∧ (Reconcile envC9cx emptyStore).retErr
        = some (.storeErr "status update failed") :=
  ⟨rfl, rfl, rfl⟩

/-- Claim C9 (amended): a Dataset whose plugin reference has
`LoadPlugin=false` causes no manifest work — the effect trace contains no
manifest-pipeline effect (template read, parameter decode, render, child
read or write), no panic occurs and the store is unchanged; and provided
the UNREADY status write (issued when subset validation fails) does not
fail, the cycle terminates successfully. -/
theorem reconcile_noLoadPlugin (env : ReconcileEnv) (ds : Dataset) (s : ClusterStore)
    (h₁ : env.getDataset = .found ds)
    (h₂ : ds.spec.datasetMetadata.plugin.loadPlugin = false) :
    (Reconcile env s).panicMsg = none
    ∧ (Reconcile env s).store = s
    ∧ (Reconcile env s).trace.filter Effect.isManifest = []
    ∧ (env.statusUpdate { ds with status := { state := .unready } } = none →
        (Reconcile env s).retErr = none) := by
  by_cases hv : isSubsetInfoValid ds.spec.datasetMetadata.datasetInfo.subsets
  · simp [Reconcile, reconcilePluginPhase, h₁, h₂, hv]
  · cases hu : env.statusUpdate { ds with status := { state := .unready } } with
    | none =>
      simp [Reconcile, reconcilePluginPhase, h₁, h₂, hv, hu, Effect.isManifest]
    | some e =>
      simp [Reconcile, reconcilePluginPhase, h₁, h₂, hv, hu, Effect.isManifest]

/-- Witness for C9 (amended) at a concrete Dataset with `LoadPlugin=false`
whose status write (not issued here) would succeed. -/
theorem reconcile_noLoadPlugin_witness :
    ({ envMin with getDataset := .found dsC9 } : ReconcileEnv).getDataset = .found dsC9
    ∧ dsC9.spec.datasetMetadata.plugin.loadPlugin = false
    ∧ ((Reconcile { envMin with getDataset := .found dsC9 } emptyStore).panicMsg = none
      ∧ (Reconcile { envMin with getDataset := .found dsC9 } emptyStore).store = emptyStore
      ∧ (Reconcile { envMin with getDataset := .found dsC9 } emptyStore).trace.filter
          Effect.isManifest = [])
    ∧ (Reconcile { envMin with getDataset := .found dsC9 } emptyStore).retErr = none :=
  ⟨rfl, rfl,
    ⟨(reconcile_noLoadPlugin { envMin with getDataset := .found dsC9 } dsC9
        emptyStore rfl rfl).1,
     (reconcile_noLoadPlugin { envMin with getDataset := .found dsC9 } dsC9
        emptyStore rfl rfl).2.1,
     (reconcile_noLoadPlugin { envMin with getDataset := .found dsC9 } dsC9
        emptyStore rfl rfl).2.2.1⟩,
   (reconcile_noLoadPlugin { envMin with getDataset := .found dsC9 } dsC9
      emptyStore rfl rfl).2.2.2 rfl⟩

/-- Counterexample for C6 as stated: `dsC6inv` requests loading of the
missing DataPlugin `ghost`, yet in `envC6cx` (no valid subset, so the
UNREADY status write is issued, and that write fails) the cycle returns
the status-write error rather than terminating without error. -/
theorem reconcile_plugin_notFound_cx :
    dsC6inv.spec.datasetMetadata.plugin.loadPlugin = true
    ∧ envC6cx.getDataPlugin dsC6inv.spec.datasetMetadata.plugin.name = .notFound
    ∧ (Reconcile envC6cx emptyStore).retErr
        = some (.storeErr "status update failed") :=
  ⟨rfl, rfl, rfl⟩

/-- Claim C6 (amended): when the Dataset requests plugin loading but the
named DataPlugin descriptor does not exist, reconciliation creates or
updates no manifest-derived child document, does not panic and leaves the
child store unchanged; and provided the UNREADY status write (issued when
subset validation fails) does not fail, it terminates without a returned
error. -/
theorem reconcile_plugin_notFound (env : ReconcileEnv) (ds : Dataset) (s : ClusterStore)
    (h₁ : env.getDataset = .found ds)
    (h₂ : ds.spec.datasetMetadata.plugin.loadPlugin = true)
    (h₃ : env.getDataPlugin ds.spec.datasetMetadata.plugin.name = .notFound) :
    (Reconcile env s).panicMsg = none
    ∧ (Reconcile env s).store = s
    ∧ (Reconcile env s).trace.filter Effect.isChildWrite = []
    ∧ (env.statusUpdate { ds with status := { state := .unready } } = none →
        (Reconcile env s).retErr = none) := by
  by_cases hv : isSubsetInfoValid ds.spec.datasetMetadata.datasetInfo.subsets
  · simp [Reconcile, reconcilePluginPhase, h₁, h₂, h₃, hv]
  · cases hu : env.statusUpdate { ds with status := { state := .unready } } with
    | none =>
      simp [Reconcile, reconcilePluginPhase, h₁, h₂, h₃, hv, hu, Effect.isChildWrite]
    | some e =>
      simp [Reconcile, reconcilePluginPhase, h₁, h₂, h₃, hv, hu, Effect.isChildWrite]

/-- Witness for C6 (amended) at a concrete Dataset whose DataPlugin is
missing and whose subsets are valid (no status write issued). -/
theorem reconcile_plugin_notFound_witness :
    ({ envMin with getDataset := .found dsC6 } : ReconcileEnv).getDataset = .found dsC6
    ∧ dsC6.spec.datasetMetadata.plugin.loadPlugin = true
    ∧ ({ envMin with getDataset := .found dsC6 } : ReconcileEnv).getDataPlugin
        dsC6.spec.datasetMetadata.plugin.name = .notFound
    ∧ ((Reconcile { envMin with getDataset := .found dsC6 } emptyStore).panicMsg = none
      ∧ (Reconcile { envMin with getDataset := .found dsC6 } emptyStore).store = emptyStore
      ∧ (Reconcile { envMin with getDataset := .found dsC6 } emptyStore).trace.filter
          Effect.isChildWrite = [])
    ∧ (Reconcile { envMin with getDataset := .found dsC6 } emptyStore).retErr = none :=
  ⟨rfl, rfl, rfl,
    ⟨(reconcile_plugin_notFound { envMin with getDataset := .found dsC6 } dsC6
        emptyStore rfl rfl rfl).1,
     (reconcile_plugin_notFound { envMin with getDataset := .found dsC6 } dsC6
        emptyStore rfl rfl rfl).2.1,
     (reconcile_plugin_notFound { envMin with getDataset := .found dsC6 } dsC6
        emptyStore rfl rfl rfl).2.2.1⟩,
   (reconcile_plugin_notFound { envMin with getDataset := .found dsC6 } dsC6
      emptyStore rfl rfl rfl).2.2.2 rfl⟩

/-- Claim C3: for every document given to the apply engine, if the read of
the same identity reports not-found the engine issues a create of the
document as given; if it finds an existing document the engine copies its
version token onto the new document and issues an update; a read error
other than not-found is returned unchanged; and a create or update failure
is returned unchanged. -/
theorem applyClient_branches {σ : Type} (c : KClient σ) (s : σ) (obj : Document) :
    (c.get s (objKey obj) = .notFound →
      applyClientK c s obj
        = ([.getChild (objKey obj), .createChild obj], c.create s obj))
    ∧ (∀ d, c.get s (objKey obj) = .found d →
      applyClientK c s obj
        = ([.getChild (objKey obj),
            .updateChild { obj with resourceVersion := d.resourceVersion }],
           c.update s { obj with resourceVersion := d.resourceVersion }))
    ∧ (∀ e, c.get s (objKey obj) = .errOther e →
      applyClientK c s obj = ([.getChild (objKey obj)], .error e))
    ∧ (∀ e, c.get s (objKey obj) = .notFound → c.create s obj = .error e →
      (applyClientK c s obj).2 = .error e)
    ∧ (∀ d e, c.get s (objKey obj) = .found d →
      c.update s { obj with resourceVersion := d.resourceVersion } = .error e →
      (applyClientK c s obj).2 = .error e) := by
  refine ⟨?_, ?_, ?_, ?_, ?_⟩
  · intro h; simp [applyClientK, h]
  · intro d h; simp [applyClientK, h]
  · intro e h; simp [applyClientK, h]
  · intro e h hc; simp [applyClientK, h, hc]
  · intro d e h hu; simp [applyClientK, h, hu]

/-- Witness for C3: against the empty modelled store the read reports
not-found and the engine issues a create. -/
theorem applyClient_branches_witness :
    clusterClient.get emptyStore (objKey docA) = .notFound
    ∧ applyClientK clusterClient emptyStore docA
        = ([.getChild (objKey docA), .createChild docA], storeCreate emptyStore docA) :=
  ⟨rfl, (applyClient_branches clusterClient emptyStore docA).1 rfl⟩

/-- After a successful apply, the store holds, under the document's
identity, a document equal to it up to the version token. -/
theorem applyClient_ok_stored (s : ClusterStore) (obj : Document) (s₁ : ClusterStore)
    (h : (applyClient s obj).2 = .ok s₁) :
    ∃ d, storeGet s₁ (objKey obj) = some d
      ∧ d = { obj with resourceVersion := d.resourceVersion } := by
  revert h
  unfold applyClient applyClientK clusterClient
  cases hg : storeGet s (objKey obj) with
  | none =>
    simp only [hg]
    unfold storeCreate
    simp only [hg]
    intro h
    obtain rfl : _ = s₁ := by exact Except.ok.inj h
    exact ⟨{ obj with resourceVersion := some s.nextRV },
      by simp [storeGet, storeLookup], rfl⟩
  | some existing =>
    simp only [hg]
    unfold storeUpdate
    have hkey : objKey { obj with resourceVersion := existing.resourceVersion }
        = objKey obj := rfl
    rw [hkey, hg]
    simp only [ne_eq, ite_not]
    intro h
    rw [if_pos trivial] at h
    by_cases heq : ({ obj with resourceVersion := existing.resourceVersion } : Document)
        = existing
    · rw [if_pos heq] at h
      obtain rfl : s = s₁ := Except.ok.inj h
      exact ⟨existing, hg, by rw [← heq]⟩
    · rw [if_neg heq] at h
      obtain rfl : _ = s₁ := Except.ok.inj h
      refine ⟨{ obj with resourceVersion := some s.nextRV }, ?_, rfl⟩
      exact storeLookup_replace s.objs (objKey obj) _ existing hg

/-- Claim C2: applying the same fully formed document twice in a row with no
intervening external change is idempotent: if the first apply succeeds with
store `s₁`, the second apply reads the stored document (the update branch),
issues a no-op update, returns no error, and leaves the store at `s₁`. -/
theorem applyClient_idempotent (s : ClusterStore) (obj : Document) (s₁ : ClusterStore)
    (h : (applyClient s obj).2 = .ok s₁) :
    ∃ d, storeGet s₁ (objKey obj) = some d
      ∧ applyClient s₁ obj
          = ([.getChild (objKey obj),
              .updateChild { obj with resourceVersion := d.resourceVersion }],
             .ok s₁) := by
  obtain ⟨d, hget, hd⟩ := applyClient_ok_stored s obj s₁ h
  refine ⟨d, hget, ?_⟩
  unfold applyClient applyClientK clusterClient
  simp only [hget]
  unfold storeUpdate
  have hkey : objKey { obj with resourceVersion := d.resourceVersion }
      = objKey obj := rfl
  rw [hkey, hget]
  simp only [ne_eq, ite_not]
  rw [if_pos trivial, if_pos hd.symm]

/-- Witness for C2: a concrete first apply (a create into the empty store)
followed by a second apply that is a no-op update. -/
theorem applyClient_idempotent_witness :
    (applyClient emptyStore docA).2
        = .ok ⟨[(objKey docA, { docA with resourceVersion := some 0 })], 1⟩
    ∧ ∃ d, storeGet ⟨[(objKey docA, { docA with resourceVersion := some 0 })], 1⟩
          (objKey docA) = some d
        ∧ applyClient ⟨[(objKey docA, { docA with resourceVersion := some 0 })], 1⟩ docA
            = ([.getChild (objKey docA),
                .updateChild { docA with resourceVersion := d.resourceVersion }],
               .ok ⟨[(objKey docA, { docA with resourceVersion := some 0 })], 1⟩) :=
  ⟨rfl, applyClient_idempotent emptyStore docA
    ⟨[(objKey docA, { docA with resourceVersion := some 0 })], 1⟩ rfl⟩

/-- The trace of `replacePlaceholders` never contains a child write. -/
theorem replacePlaceholders_trace (env : ReconcileEnv) (ds : Dataset) (y : String) :
    (replacePlaceholders env ds y).1 = [.decodeParams]
    ∨ (replacePlaceholders env ds y).1 = [.decodeParams, .render] := by
  unfold replacePlaceholders
  cases hp : assembleParameters env.completeNotifyUrl
      ds.spec.datasetMetadata.plugin.parameters with
  | ok parameters =>
    cases hrt : replaceTemplate y parameters with
    | error e => simp [hp, hrt]
    | ok r => simp [hp, hrt]
  | err e => simp [hp]
  | panicked m => simp [hp]

/-- Any document the apply engine attempts to write carries the namespace
and owner reference of the document it was given. -/
theorem applyClientK_write_fields {σ : Type} (c : KClient σ) (s : σ) (obj d : Document)
    (h : Effect.createChild d ∈ (applyClientK c s obj).1
      ∨ Effect.updateChild d ∈ (applyClientK c s obj).1) :
    d.ns = obj.ns ∧ d.ownerRef = obj.ownerRef := by
  cases hg : c.get s (objKey obj) with
  | found existing =>
    simp [applyClientK, hg] at h
    subst h
    exact ⟨rfl, rfl⟩
  | notFound =>
    simp [applyClientK, hg] at h
    subst h
    exact ⟨rfl, rfl⟩
  | errOther e =>
    simp [applyClientK, hg] at h

/-- Claim C8: every document the apply engine writes to the store (every
create or update issued by `applyYAML`) has, at the time of the write, its
namespace equal to the owning Dataset's namespace and its owner reference
to that Dataset set. -/
theorem applyYAML_stamps (env : ReconcileEnv) (s : ClusterStore) (path : String)
    (ds : Dataset) (d : Document)
    (h : Effect.createChild d ∈ (applyYAML env s path ds).1
      ∨ Effect.updateChild d ∈ (applyYAML env s path ds).1) :
    d.ns = ds.ns ∧ d.ownerRef = some (ownerRefOf ds) := by
  revert h
  unfold applyYAML
  cases hf : env.readFile path with
  | error e =>
    intro h
    rcases h with h | h <;> simp at h
  | ok y =>
    dsimp only
    rcases htr : replacePlaceholders env ds y with ⟨tr, oc⟩
    have htrace : tr = [.decodeParams] ∨ tr = [.decodeParams, .render] := by
      have h' := replacePlaceholders_trace env ds y
      rw [htr] at h'
      simpa using h'
    cases oc with
    | err e =>
      intro h
      rcases htrace with h₁ | h₁ <;> subst h₁ <;> rcases h with h | h <;> simp at h
    | panicked m =>
      intro h
      rcases htrace with h₁ | h₁ <;> subst h₁ <;> rcases h with h | h <;> simp at h
    | ok replaced =>
      cases hd : env.decodeYaml replaced with
      | error e =>
        intro h
        rcases htrace with h₁ | h₁ <;> subst h₁ <;> rcases h with h | h <;>
          simp [hd] at h
      | ok u =>
        dsimp only
        rw [hd]
        dsimp only
        rcases hap : applyClient s (setControllerReference ds (setNamespace u ds.ns))
          with ⟨tr₂, r⟩
        have hfields : ∀ d' : Document,
            (Effect.createChild d' ∈ tr₂ ∨ Effect.updateChild d' ∈ tr₂) →
            d'.ns = ds.ns ∧ d'.ownerRef = some (ownerRefOf ds) := by
          intro d' h'
          exact applyClientK_write_fields clusterClient s
            (setControllerReference ds (setNamespace u ds.ns)) d'
            (by rw [show applyClientK clusterClient s
                (setControllerReference ds (setNamespace u ds.ns))
                = applyClient s (setControllerReference ds (setNamespace u ds.ns)) from rfl,
              hap]; exact h')
        cases r with
        | ok s₁ =>
          intro h
          refine hfields d ?_
          rcases htrace with h₁ | h₁ <;> subst h₁ <;>
            rcases h with h | h <;> rw [List.mem_cons, List.mem_append] at h <;>
            rcases h with h | h | h
          · exact absurd h (by simp)
          · exact absurd h (by simp)
          · exact Or.inl h
          · exact absurd h (by simp)
          · exact absurd h (by simp)
          · exact Or.inr h
          · exact absurd h (by simp)
          · exact absurd h (by simp)
          · exact Or.inl h
          · exact absurd h (by simp)
          · exact absurd h (by simp)
          · exact Or.inr h
        | error e =>
          intro h
          refine hfields d ?_
          rcases htrace with h₁ | h₁ <;> subst h₁ <;>
            rcases h with h | h <;> rw [List.mem_cons, List.mem_append] at h <;>
            rcases h with h | h | h
          · exact absurd h (by simp)
          · exact absurd h (by simp)
          · exact Or.inl h
          · exact absurd h (by simp)
          · exact absurd h (by simp)
          · exact Or.inr h
          · exact absurd h (by simp)
          · exact absurd h (by simp)
          · exact Or.inl h
          · exact absurd h (by simp)
          · exact absurd h (by simp)
          · exact Or.inr h

/-- Witness for C8 at the concrete `envC1` pipeline, whose apply engine
issues a create of `stampedC1`. -/
theorem applyYAML_stamps_witness :
    (Effect.createChild stampedC1
        ∈ (applyYAML envC1 emptyStore "plugins/text/acme/plugin.yaml" dsC1).1
      ∨ Effect.updateChild stampedC1
        ∈ (applyYAML envC1 emptyStore "plugins/text/acme/plugin.yaml" dsC1).1)
    ∧ (stampedC1.ns = dsC1.ns ∧ stampedC1.ownerRef = some (ownerRefOf dsC1)) :=
  ⟨Or.inl (by decide),
   applyYAML_stamps envC1 emptyStore "plugins/text/acme/plugin.yaml" dsC1 stampedC1
     (Or.inl (by decide))⟩

/-- Claim C1 (evaluation at the failing input): `dsC1` has no subset with
both file references non-empty, yet in `envC1` the cycle both writes status
UNREADY and still performs the manifest apply — a create of the child
document is issued and the store is mutated — because the source does not
return after the status write. -/
theorem reconcile_unready_still_applies :
    isSubsetInfoValid dsC1.spec.datasetMetadata.datasetInfo.subsets = false
    ∧ (Reconcile envC1 emptyStore).retErr = none
    ∧ Effect.statusUpdate .unready ∈ (Reconcile envC1 emptyStore).trace
    ∧ Effect.createChild stampedC1 ∈ (Reconcile envC1 emptyStore).trace
    ∧ (Reconcile envC1 emptyStore).store ≠ emptyStore := by
  refine ⟨rfl, rfl, ?_, ?_, ?_⟩ <;> decide

/-- Claim C4 (evaluation at the failing inputs): a parameter blob of JSON
`null` unmarshals to a nil map and the subsequent injection assignment
panics; an empty blob is a JSON syntax error surfaced by the unmarshaller —
neither proceeds with an empty mapping. -/
theorem replacePlaceholders_null_or_empty_blob :
    dsNullBlob.spec.datasetMetadata.plugin.parameters = "null"
    ∧ replacePlaceholders envMin dsNullBlob "kind: A"
        = ([.decodeParams], .panicked "assignment to entry in nil map")
    ∧ dsEmptyBlob.spec.datasetMetadata.plugin.parameters = ""
    ∧ replacePlaceholders envMin dsEmptyBlob "kind: A"
        = ([.decodeParams], .err (.badJson "unexpected end of JSON input")) :=
  ⟨rfl, rfl, rfl, rfl⟩

/-- Claim C10: whenever the plugin parameter blob decodes to a mapping, the
parameter set assembled for rendering maps `completeNotifyUrl` to the
configured process-wide value — the injected entry overwrites any
user-supplied entry under that key. -/
theorem completeNotifyUrl_injection_overwrites (url blob : String) (m : GoMap)
    (h : goJsonUnmarshalMap blob = .ok (some m)) :
    assembleParameters url blob
      = .ok (goMapInsert m "completeNotifyUrl" (.jstr url))
    ∧ goMapLookup (goMapInsert m "completeNotifyUrl" (.jstr url)) "completeNotifyUrl"
      = some (.jstr url) := by
  refine ⟨?_, goMapLookup_insert m _ _⟩
  simp [assembleParameters, h, getCompleteNotifyURL]

/-- Witness for C10 at a blob that itself supplies `completeNotifyUrl`. -/
theorem completeNotifyUrl_injection_overwrites_witness :
    goJsonUnmarshalMap blobC10 = .ok (some mapC10)
    ∧ (assembleParameters "http://notify" blobC10
        = .ok (goMapInsert mapC10 "completeNotifyUrl" (.jstr "http://notify"))
      ∧ goMapLookup (goMapInsert mapC10 "completeNotifyUrl" (.jstr "http://notify"))
          "completeNotifyUrl" = some (.jstr "http://notify")) :=
  ⟨rfl, completeNotifyUrl_injection_overwrites "http://notify" blobC10 mapC10 rfl⟩

end DatasetController
